import Mathlib

/-!
Verification of the AI carbon-footprint estimation engine (src/tool.py).

The engine is embedded shallowly over ℚ: the Python source computes with
floats, but every constant in its tables is an exact decimal, so exact
rational arithmetic captures the intended real-valued semantics of the
formulas.  Pure fragments of the script (the constant tables, the
intensity resolution of the sidebar, and the estimation block guarded by
`units > 0`) become Lean functions; the Streamlit UI around them only
supplies inputs and renders outputs.
-/

namespace AICalc

/-- The closed three-way workload selection (`workload_type` radio,
src/tool.py line 84). -/
inductive WorkloadType where
  | Text
  | Image
  | Video
  deriving DecidableEq, Repr

/-- `ENERGY_FACTORS` table, src/tool.py lines 17–21 (Wh per unit). -/
def ENERGY_FACTORS : WorkloadType → ℚ
  | .Text => 0.5
  | .Image => 5.0
  | .Video => 14.375

/-- `CO2_INTENSITY_GLOBAL`, src/tool.py line 15 (g CO₂/kWh, global average). -/
def CO2_INTENSITY_GLOBAL : ℚ := 475

/-- The country names obtained from `eu_countries` after stripping the flag
icon (`country_icon.values()`, src/tool.py lines 28–37). -/
def country_names : List String :=
  ["Austria", "Belgium", "Bulgaria", "Croatia", "Cyprus", "Czech Republic",
   "Denmark", "Estonia", "Finland", "France", "Germany", "Greece",
   "Hungary", "Ireland", "Italy", "Latvia", "Lithuania", "Luxembourg",
   "Malta", "Netherlands", "Poland", "Portugal", "Romania", "Slovakia",
   "Slovenia", "Spain", "Sweden"]

/-- `default_intensity = {country: 366 for country in country_icon.values()}`,
src/tool.py line 40. -/
def default_intensity : List (String × ℚ) :=
  country_names.map (fun c => (c, 366))

/-- Python `dict.get(key, default)` on an association list. -/
def dictGet (d : List (String × ℚ)) (k : String) (dflt : ℚ) : ℚ :=
  match d.lookup k with
  | some v => v
  | none => dflt

/-- `co2_default = default_intensity.get(country_name, CO2_INTENSITY_GLOBAL)`,
src/tool.py line 45. -/
def co2_default (country_name : String) : ℚ :=
  dictGet default_intensity country_name CO2_INTENSITY_GLOBAL

/-- The intensity resolution of src/tool.py lines 52–58: with the manual
override checked, `CO2_INTENSITY` is the entered value; otherwise it is
`co2_default`.  The optional override models the checkbox+input pair. -/
def resolve (country_name : String) (override : Option ℚ) : ℚ :=
  match override with
  | some v => v
  | none => co2_default country_name

/-- The output bundle: the numeric quantities computed and rendered in
src/tool.py lines 118–120 and 181–185. -/
structure EstimationResult where
  energyWh : ℚ
  energyKWh : ℚ
  emissionsG : ℚ
  googleSearchEquivalent : ℚ
  ledBulbHoursEquivalent : ℚ
  metersDriven : ℚ
  coalBurnedGrams : ℚ
  deriving DecidableEq, Repr

/-- The estimation block of src/tool.py: the guard `units > 0` (line 117),
`energy_wh` / `energy_kwh` / `emissions_g` (lines 118–120), and the
equivalence figures `google_search_equiv`, `led_bulb_equiv`, `m_driven`,
`coal_burned` (lines 181–185).  When the guard fails no report is
rendered, modelled as `none`. -/
def estimate (workload : WorkloadType) (units : ℚ) (intensity : ℚ) :
    Option EstimationResult :=
  if units > 0 then
    let energy_wh := units * ENERGY_FACTORS workload
    let energy_kwh := energy_wh / 1000
    let emissions_g := energy_kwh * intensity
    let co2_kg := emissions_g / 1000
    some
      { energyWh := energy_wh
        energyKWh := energy_kwh
        emissionsG := emissions_g
        googleSearchEquivalent := emissions_g / 0.05
        ledBulbHoursEquivalent := emissions_g / 15
        metersDriven := co2_kg * 4042
        coalBurnedGrams := co2_kg * 500 }
  else
    none

/-- The record produced by `estimate` on the positive-quantity branch,
with the let-bindings of src/tool.py lines 118–120 and 181–185 spelled
out.  Proof-side helper only; `estimate` is the embedding. -/
def mkResult (w : WorkloadType) (q i : ℚ) : EstimationResult :=
  { energyWh := q * ENERGY_FACTORS w
    energyKWh := q * ENERGY_FACTORS w / 1000
    emissionsG := q * ENERGY_FACTORS w / 1000 * i
    googleSearchEquivalent := q * ENERGY_FACTORS w / 1000 * i / 0.05
    ledBulbHoursEquivalent := q * ENERGY_FACTORS w / 1000 * i / 15
    metersDriven := q * ENERGY_FACTORS w / 1000 * i / 1000 * 4042
    coalBurnedGrams := q * ENERGY_FACTORS w / 1000 * i / 1000 * 500 }

/-- On a positive quantity, `estimate` returns exactly `mkResult`. -/
theorem estimate_pos_eq (w : WorkloadType) (q i : ℚ) (h : 0 < q) :
    estimate w q i = some (mkResult w q i) := by
  unfold estimate mkResult
  rw [if_pos h]

/-- Every energy factor is strictly positive. -/
theorem ENERGY_FACTORS_pos (w : WorkloadType) : 0 < ENERGY_FACTORS w := by
  cases w <;> norm_num [ENERGY_FACTORS]

/-- C1: for every workload type and every intensity, a non-positive
quantity produces no result. -/
theorem estimate_nonpos_quantity_none (w : WorkloadType) (q i : ℚ)
    (h : q ≤ 0) : estimate w q i = none := by
  simp only [estimate, if_neg (not_lt.mpr h)]

/-- Witness for C1 at workload Text, quantity 0, intensity 366. -/
theorem estimate_nonpos_quantity_none_witness :
    (0 : ℚ) ≤ 0 ∧ estimate WorkloadType.Text 0 366 = none :=
  ⟨le_refl 0, estimate_nonpos_quantity_none WorkloadType.Text 0 366 (le_refl 0)⟩

/-- C2: for positive quantity the result exists and satisfies
`energyWh = q × factor`, `energyKWh = energyWh / 1000`,
`emissionsG = energyKWh × i`, with the factor table Text → 0.5,
Image → 5.0, Video → 14.375. -/
theorem estimate_core_formulas (w : WorkloadType) (q i : ℚ) (h : 0 < q) :
    ENERGY_FACTORS WorkloadType.Text = 0.5 ∧
    ENERGY_FACTORS WorkloadType.Image = 5.0 ∧
    ENERGY_FACTORS WorkloadType.Video = 14.375 ∧
    ∃ e, estimate w q i = some e ∧
      e.energyWh = q * ENERGY_FACTORS w ∧
      e.energyKWh = e.energyWh / 1000 ∧
      e.emissionsG = e.energyKWh * i := by
  refine ⟨rfl, rfl, rfl, ?_⟩
  refine ⟨{ energyWh := q * ENERGY_FACTORS w,
            energyKWh := q * ENERGY_FACTORS w / 1000,
            emissionsG := q * ENERGY_FACTORS w / 1000 * i,
            googleSearchEquivalent := q * ENERGY_FACTORS w / 1000 * i / 0.05,
            ledBulbHoursEquivalent := q * ENERGY_FACTORS w / 1000 * i / 15,
            metersDriven := q * ENERGY_FACTORS w / 1000 * i / 1000 * 4042,
            coalBurnedGrams := q * ENERGY_FACTORS w / 1000 * i / 1000 * 500 },
          ?_, rfl, rfl, rfl⟩
  simp only [estimate, if_pos h]

/-- Witness for C2 at workload Text, quantity 100, intensity 366. -/
theorem estimate_core_formulas_witness :
    (0 : ℚ) < 100 ∧
    (ENERGY_FACTORS WorkloadType.Text = 0.5 ∧
     ENERGY_FACTORS WorkloadType.Image = 5.0 ∧
     ENERGY_FACTORS WorkloadType.Video = 14.375 ∧
     ∃ e, estimate WorkloadType.Text 100 366 = some e ∧
       e.energyWh = 100 * ENERGY_FACTORS WorkloadType.Text ∧
       e.energyKWh = e.energyWh / 1000 ∧
       e.emissionsG = e.energyKWh * 366) :=
  ⟨by norm_num, estimate_core_formulas WorkloadType.Text 100 366 (by norm_num)⟩

/-- C3: every produced result's equivalence figures are exactly
`emissionsG / 0.05`, `emissionsG / 15`, `(emissionsG / 1000) × 4042`
and `(emissionsG / 1000) × 500`. -/
theorem estimate_equivalences (w : WorkloadType) (q i : ℚ)
    (e : EstimationResult) (h : estimate w q i = some e) :
    e.googleSearchEquivalent = e.emissionsG / 0.05 ∧
    e.ledBulbHoursEquivalent = e.emissionsG / 15 ∧
    e.metersDriven = e.emissionsG / 1000 * 4042 ∧
    e.coalBurnedGrams = e.emissionsG / 1000 * 500 := by
  by_cases hq : q > 0
  · simp only [estimate, if_pos hq, Option.some.injEq] at h
    subst h
    exact ⟨rfl, rfl, rfl, rfl⟩
  · simp [estimate, if_neg hq] at h

/-- Witness for C3 at workload Image, quantity 3, intensity 475. -/
theorem estimate_equivalences_witness :
    (estimate WorkloadType.Image 3 475 = some
      { energyWh := 15, energyKWh := 0.015, emissionsG := 7.125,
        googleSearchEquivalent := 142.5, ledBulbHoursEquivalent := 0.475,
        metersDriven := 28.79925, coalBurnedGrams := 3.5625 }) ∧
    ((142.5 : ℚ) = 7.125 / 0.05 ∧ (0.475 : ℚ) = 7.125 / 15 ∧
     (28.79925 : ℚ) = 7.125 / 1000 * 4042 ∧
     (3.5625 : ℚ) = 7.125 / 1000 * 500) :=
  ⟨by norm_num [estimate, ENERGY_FACTORS, EstimationResult.mk.injEq],
   estimate_equivalences WorkloadType.Image 3 475
     { energyWh := 15, energyKWh := 0.015, emissionsG := 7.125,
       googleSearchEquivalent := 142.5, ledBulbHoursEquivalent := 0.475,
       metersDriven := 28.79925, coalBurnedGrams := 3.5625 }
     (by norm_num [estimate, ENERGY_FACTORS, EstimationResult.mk.injEq])⟩

/-- C4: a present override is returned unchanged, for every location. -/
theorem resolve_override (country : String) (v : ℚ) (h : 0 ≤ v) :
    resolve country (some v) = v := rfl

/-- Witness for C4 at location France, override 1000. -/
theorem resolve_override_witness :
    (0 : ℚ) ≤ 1000 ∧ resolve "France" (some 1000) = 1000 :=
  ⟨by norm_num, resolve_override "France" 1000 (by norm_num)⟩

/-- Looking up a key in a constant-valued association table built by
mapping over a key list: hit iff the key is in the list. -/
theorem lookup_const_table (l : List String) (k : String) (v : ℚ) :
    (l.map (fun c => (c, v))).lookup k = if k ∈ l then some v else none := by
  induction l with
  | nil => simp
  | cons a l ih =>
      by_cases h : k = a
      · simp [List.lookup, h]
      · have hb : (k == a) = false := beq_eq_false_iff_ne.mpr h
        simp [List.lookup, hb, ih, h]

/-- C5: with no override, a location in the default table resolves to
366, and a location absent from the table resolves to the global-average
fallback 475. -/
theorem resolve_no_override (country : String) :
    (country ∈ country_names → resolve country none = 366) ∧
    (country ∉ country_names → resolve country none = 475) := by
  constructor <;> intro h <;>
    simp [resolve, co2_default, dictGet, default_intensity,
      lookup_const_table, CO2_INTENSITY_GLOBAL, h]

/-- Witness for C5: France is in the table and resolves to 366;
"Atlantis" is absent and resolves to 475. -/
theorem resolve_no_override_witness :
    resolve "France" none = 366 ∧ resolve "Atlantis" none = 475 :=
  ⟨(resolve_no_override "France").1 (by decide),
   (resolve_no_override "Atlantis").2 (by decide)⟩

/-- C6 counterexample: at intensity 0 (an allowed intensity, see the
override-0 scenario) raising the quantity from 1 to 2 leaves emissionsG
at 0, so emissionsG does not strictly increase for every fixed intensity. -/
theorem quantity_mono_counterexample :
    ¬ (∃ e₁ e₂, estimate WorkloadType.Text 1 0 = some e₁ ∧
        estimate WorkloadType.Text 2 0 = some e₂ ∧
        e₁.emissionsG < e₂.emissionsG) := by
  rintro ⟨e₁, e₂, h₁, h₂, hlt⟩
  simp only [estimate, if_pos (by norm_num : (1 : ℚ) > 0),
    Option.some.injEq] at h₁
  simp only [estimate, if_pos (by norm_num : (2 : ℚ) > 0),
    Option.some.injEq] at h₂
  subst h₁
  subst h₂
  norm_num at hlt

/-- C6 (amended): for every workload type and every fixed positive
intensity, increasing the quantity over positive quantities strictly
increases emissionsG. -/
theorem quantity_strict_mono (w : WorkloadType) (i q₁ q₂ : ℚ)
    (hq₁ : 0 < q₁) (hq : q₁ < q₂) (hi : 0 < i) :
    ∃ e₁ e₂, estimate w q₁ i = some e₁ ∧ estimate w q₂ i = some e₂ ∧
      e₁.emissionsG < e₂.emissionsG := by
  have hF := ENERGY_FACTORS_pos w
  refine ⟨mkResult w q₁ i, mkResult w q₂ i,
    estimate_pos_eq w q₁ i hq₁, estimate_pos_eq w q₂ i (lt_trans hq₁ hq), ?_⟩
  show q₁ * ENERGY_FACTORS w / 1000 * i < q₂ * ENERGY_FACTORS w / 1000 * i
  have h1 : q₁ * ENERGY_FACTORS w < q₂ * ENERGY_FACTORS w :=
    mul_lt_mul_of_pos_right hq hF
  have h2 : q₁ * ENERGY_FACTORS w / 1000 < q₂ * ENERGY_FACTORS w / 1000 := by
    linarith
  exact mul_lt_mul_of_pos_right h2 hi

/-- Witness for the amended C6 at workload Text, intensity 366,
quantities 1 and 2. -/
theorem quantity_strict_mono_witness :
    ((0 : ℚ) < 1 ∧ (1 : ℚ) < 2 ∧ (0 : ℚ) < 366) ∧
    (∃ e₁ e₂, estimate WorkloadType.Text 1 366 = some e₁ ∧
      estimate WorkloadType.Text 2 366 = some e₂ ∧
      e₁.emissionsG < e₂.emissionsG) :=
  ⟨⟨by norm_num, by norm_num, by norm_num⟩,
   quantity_strict_mono WorkloadType.Text 366 1 2
    (by norm_num) (by norm_num) (by norm_num)⟩

/-- C7: for every workload type and every fixed positive quantity,
increasing the intensity strictly increases emissionsG. -/
theorem intensity_strict_mono (w : WorkloadType) (q i₁ i₂ : ℚ)
    (hq : 0 < q) (hi : i₁ < i₂) :
    ∃ e₁ e₂, estimate w q i₁ = some e₁ ∧ estimate w q i₂ = some e₂ ∧
      e₁.emissionsG < e₂.emissionsG := by
  have hF := ENERGY_FACTORS_pos w
  refine ⟨mkResult w q i₁, mkResult w q i₂,
    estimate_pos_eq w q i₁ hq, estimate_pos_eq w q i₂ hq, ?_⟩
  show q * ENERGY_FACTORS w / 1000 * i₁ < q * ENERGY_FACTORS w / 1000 * i₂
  exact mul_lt_mul_of_pos_left hi (by positivity)

/-- Witness for C7 at workload Video, quantity 10, intensities 366
and 475. -/
theorem intensity_strict_mono_witness :
    ((0 : ℚ) < 10 ∧ (366 : ℚ) < 475) ∧
    (∃ e₁ e₂, estimate WorkloadType.Video 10 366 = some e₁ ∧
      estimate WorkloadType.Video 10 475 = some e₂ ∧
      e₁.emissionsG < e₂.emissionsG) :=
  ⟨⟨by norm_num, by norm_num⟩,
   intensity_strict_mono WorkloadType.Video 10 366 475
    (by norm_num) (by norm_num)⟩

/-- C8 counterexample: the computed emissions for workload Video,
quantity 10, intensity 366 are not 52.5825 (they are
143.75 / 1000 × 366 = 52.6125). -/
theorem scenario3_emissions_counterexample :
    (estimate WorkloadType.Video 10 366).map EstimationResult.emissionsG ≠
      some (52.5825 : ℚ) := by
  norm_num [estimate, ENERGY_FACTORS]

/-- C8 (amended): estimate with workload Video, quantity 10, intensity
366 returns energyWh = 143.75, energyKWh = 0.14375 and
emissionsG = 52.6125. -/
theorem scenario3_video :
    (estimate WorkloadType.Video 10 366).map
      (fun e => (e.energyWh, e.energyKWh, e.emissionsG)) =
      some ((143.75 : ℚ), (0.14375 : ℚ), (52.6125 : ℚ)) := by
  norm_num [estimate, ENERGY_FACTORS]

/-- C9: an override of 0 resolves to 0 for every location, and estimate
at intensity 0 with positive quantity yields zero emissions but strictly
positive energy. -/
theorem override_zero_scenario (country : String) (w : WorkloadType)
    (q : ℚ) (hq : 0 < q) :
    resolve country (some 0) = 0 ∧
    ∃ e, estimate w q 0 = some e ∧ e.emissionsG = 0 ∧ 0 < e.energyWh := by
  refine ⟨rfl, ?_⟩
  refine ⟨mkResult w q 0, estimate_pos_eq w q 0 hq, ?_, ?_⟩
  · show q * ENERGY_FACTORS w / 1000 * 0 = 0
    ring
  · show 0 < q * ENERGY_FACTORS w
    exact mul_pos hq (ENERGY_FACTORS_pos w)

/-- Witness for C9 at location Spain, workload Image, quantity 3. -/
theorem override_zero_scenario_witness :
    (0 : ℚ) < 3 ∧
    (resolve "Spain" (some 0) = 0 ∧
     ∃ e, estimate WorkloadType.Image 3 0 = some e ∧
       e.emissionsG = 0 ∧ 0 < e.energyWh) :=
  ⟨by norm_num,
   override_zero_scenario "Spain" WorkloadType.Image 3 (by norm_num)⟩

/-- C10: for positive quantity and non-negative intensity every produced
field is non-negative, and both energy figures are strictly positive. -/
theorem estimate_fields_nonneg (w : WorkloadType) (q i : ℚ)
    (hq : 0 < q) (hi : 0 ≤ i) :
    ∃ e, estimate w q i = some e ∧
      0 < e.energyWh ∧ 0 < e.energyKWh ∧ 0 ≤ e.emissionsG ∧
      0 ≤ e.googleSearchEquivalent ∧ 0 ≤ e.ledBulbHoursEquivalent ∧
      0 ≤ e.metersDriven ∧ 0 ≤ e.coalBurnedGrams := by
  have hF := ENERGY_FACTORS_pos w
  have hWh : 0 < q * ENERGY_FACTORS w := mul_pos hq hF
  have hkWh : 0 < q * ENERGY_FACTORS w / 1000 := by positivity
  have hG : 0 ≤ q * ENERGY_FACTORS w / 1000 * i :=
    mul_nonneg hkWh.le hi
  refine ⟨mkResult w q i, estimate_pos_eq w q i hq, hWh, hkWh, hG, ?_, ?_, ?_, ?_⟩
  · show 0 ≤ q * ENERGY_FACTORS w / 1000 * i / 0.05
    positivity
  · show 0 ≤ q * ENERGY_FACTORS w / 1000 * i / 15
    positivity
  · show 0 ≤ q * ENERGY_FACTORS w / 1000 * i / 1000 * 4042
    positivity
  · show 0 ≤ q * ENERGY_FACTORS w / 1000 * i / 1000 * 500
    positivity

/-- Witness for C10 at workload Text, quantity 100, intensity 366. -/
theorem estimate_fields_nonneg_witness :
    ((0 : ℚ) < 100 ∧ (0 : ℚ) ≤ 366) ∧
    (∃ e, estimate WorkloadType.Text 100 366 = some e ∧
      0 < e.energyWh ∧ 0 < e.energyKWh ∧ 0 ≤ e.emissionsG ∧
      0 ≤ e.googleSearchEquivalent ∧ 0 ≤ e.ledBulbHoursEquivalent ∧
      0 ≤ e.metersDriven ∧ 0 ≤ e.coalBurnedGrams) :=
  ⟨⟨by norm_num, by norm_num⟩,
   estimate_fields_nonneg WorkloadType.Text 100 366
    (by norm_num) (by norm_num)⟩

end AICalc
